import Mathlib

/-!
Shallow embedding of the go-comicinfo library: versioned ComicInfo documents
(revisions 1, 2 and 2.1-draft), their field-validation rules and the
validate-then-serialize encoding pipeline.

Modelling conventions:
* Go `string` is `String`, `int`/`int64` are `Int`, `bool` is `Bool`,
  `*float64` / `*CommunityRating` (a nilable pointer) is `Option ℚ`
  (float64 values are modelled as exact rationals).
* The external URL oracle (`net/url.Parse`) and the external language-tag
  oracle (`golang.org/x/text/language.Parse`) are abstract parameters
  `urlOk langOk : String → Bool` (`true` = the token parses).
* Errors are an inductive type `GoErr`; each constructor corresponds to one
  `errors.New` / `fmt.Errorf` production site in the source and carries the
  formatted payloads.  `fmt.Errorf(".. %w", err)` wrapping is modelled by
  constructors that carry the wrapped error.  Dereferencing a nil rating
  pointer in an error format (`*ci.CommunityRating`) would panic at runtime
  in Go; that outcome is modelled by the dedicated error value `nilPanic`.
* An `io.Writer` sink is modelled as the log of the byte strings written to
  it (`List String`); a nil writer is `none : Option (List String)`.
-/

namespace comicinfo

/-- Model of Go `strings.Split(s, " ")` (single-space separator): structural
recursion over the character list, producing the maximal runs between
spaces; splitting the empty string yields `[""]`. -/
def splitSpaceAux : List Char → List Char → List String
  | [], acc => [String.mk acc.reverse]
  | c :: cs, acc =>
    if c = ' ' then String.mk acc.reverse :: splitSpaceAux cs []
    else splitSpaceAux cs (c :: acc)

/-- Go `strings.Split(s, " ")`, as used by the Validate URL checks. -/
def stringsSplitSpace (s : String) : List String := splitSpaceAux s.data []

/-- Model of Go `math.Round`: the nearest integer, rounding half away from
zero. -/
def goRound (x : ℚ) : ℚ :=
  if 0 ≤ x then ((⌊x + 1/2⌋ : ℤ) : ℚ) else ((⌈x - 1/2⌉ : ℤ) : ℚ)

/-- Errors produced by the library, one constructor per production site. -/
inductive GoErr where
  /-- fmt.Errorf("failed to validate URL #%d: %w", index, err) -/
  | urlErr (index : Nat) (tok : String)
  /-- fmt.Errorf("failed to validate Language: %s", lang) -/
  | langErr (lang : String)
  /-- fmt.Errorf("failed to validate BlackAndWhite: unknown value %q", v) -/
  | yesNoErr (v : String)
  /-- fmt.Errorf("failed to validate Manga: unknown value %q", v) -/
  | mangaErr (v : String)
  /-- fmt.Errorf("failed to validate AgeRating: unknown value %q", v) -/
  | ageRatingErr (v : String)
  /-- fmt.Errorf("invalid page type: %q", t) -/
  | pageTypeErr (t : String)
  /-- errors.New("image width must be greater than 0 or -1") -/
  | widthErr
  /-- errors.New("image height must be greater than 0 or -1") -/
  | heightErr
  /-- fmt.Errorf("duplicate key found for page %d: %q", i+1, key) — pos is 1-based -/
  | dupKeyErr (pos : Nat) (key : String)
  /-- fmt.Errorf("failed to validate page %d: %w", i+1, err) — pos is 1-based -/
  | pageErr (pos : Nat) (e : GoErr)
  /-- fmt.Errorf("failed to validate Pages: %w", err) -/
  | pagesErr (e : GoErr)
  /-- errors.New("pages v1 should not be set in ComicInfov2") -/
  | legacyPagesErr
  /-- fmt.Errorf("failed to validate CommunityRating: invalid value %f", *cr) -/
  | ratingErr (v : ℚ)
  /-- fmt.Errorf("validation failed: %w", err) -/
  | validationErr (e : GoErr)
  /-- errors.New("output cannot be nil") -/
  | nilOutput
  /-- Go runtime panic from dereferencing a nil *CommunityRating pointer
  while formatting the rating error message. -/
  | nilPanic
  deriving DecidableEq

deriving instance DecidableEq for Except

/-- Observation: does an error value contain (possibly wrapped) the modelled
nil-pointer-dereference panic? -/
def GoErr.hasNilPanic : GoErr → Bool
  | .pageErr _ e => GoErr.hasNilPanic e
  | .pagesErr e => GoErr.hasNilPanic e
  | .validationErr e => GoErr.hasNilPanic e
  | .nilPanic => true
  | _ => false

/-- Observation on a validation result: did it produce (possibly wrapped) the
nil-pointer panic? -/
def resultHasNilPanic : Except GoErr Unit → Bool
  | .error e => e.hasNilPanic
  | .ok _ => false

/-- Canonical file name constant (comicinfo.go). -/
def ComicInfoFileName : String := "ComicInfo.xml"

/-- XML-Schema-instance namespace constant xmlnsxni (comicinfo.go). -/
def xmlnsxni : String := "http://www.w3.org/2001/XMLSchema-instance"

/-- Shared enum token (comicinfo.go). -/
def Unknown : String := "Unknown"

/-- Shared enum token (comicinfo.go). -/
def No : String := "No"

/-- Shared enum token (comicinfo.go). -/
def Yes : String := "Yes"

/-- Shared enum token (comicinfo.go). -/
def YesAndRightToLeft : String := "YesAndRightToLeft"

def v1SchemaLocationURL : String :=
  "https://github.com/anansi-project/comicinfo/raw/refs/heads/main/schema/v1.0/ComicInfo.xsd"

def v2SchemaLocationURL : String :=
  "https://raw.githubusercontent.com/anansi-project/comicinfo/refs/heads/main/schema/v2.0/ComicInfo.xsd"

def v21SchemaLocationURL : String :=
  "https://github.com/anansi-project/comicinfo/raw/refs/heads/main/drafts/v2.1/ComicInfo.xsd"

def AgeRatingUnknown : String := "Unknown"

def AgeRatingAdultsOnly18Plus : String := "Adults Only 18+"

def AgeRatingEarlyChildhood : String := "Early Childhood"

def AgeRatingEveryone : String := "Everyone"

def AgeRatingEveryone10Plus : String := "Everyone 10+"

def AgeRatingG : String := "G"

def AgeRatingKidsToAdults : String := "Kids to Adults"

def AgeRatingM : String := "M"

def AgeRatingMA15Plus : String := "MA15+"

def AgeRatingMature17Plus : String := "Mature 17+"

def AgeRatingPG : String := "PG"

def AgeRatingR18Plus : String := "R18+"

def AgeRatingRatingPending : String := "Rating Pending"

def AgeRatingTeen : String := "Teen"

def AgeRatingX18Plus : String := "X18+"

/-- v1.go: the tri-state yes/no validity switch. -/
def isV1YesNoValid (value : String) : Bool :=
  value == "" || value == Unknown || value == No || value == Yes

/-- v2.go (draft shape in src): the manga-mode validity switch. -/
def isV2MangaValid (value : String) : Bool :=
  value == "" || value == Unknown || value == No || value == Yes ||
    value == YesAndRightToLeft

/-- v2 draft shape in src: the age-rating validity switch over the untyped
string constants. -/
def isV2AgeRatingValid (value : String) : Bool :=
  value == "" || value == Unknown || value == AgeRatingAdultsOnly18Plus ||
    value == AgeRatingEarlyChildhood || value == AgeRatingEveryone ||
    value == AgeRatingEveryone10Plus || value == AgeRatingG ||
    value == AgeRatingKidsToAdults || value == AgeRatingM ||
    value == AgeRatingMA15Plus || value == AgeRatingMature17Plus ||
    value == AgeRatingPG || value == AgeRatingR18Plus ||
    value == AgeRatingRatingPending || value == AgeRatingTeen ||
    value == AgeRatingX18Plus

/-- v2.go: the AgeRating named string type. -/
abbrev AgeRating := String

/-- v2.go: AgeRating.IsValid — the closed vocabulary plus the empty string. -/
def AgeRating.IsValid (ag : AgeRating) : Bool :=
  ag == "" || ag == AgeRatingUnknown || ag == AgeRatingAdultsOnly18Plus ||
    ag == AgeRatingEarlyChildhood || ag == AgeRatingEveryone ||
    ag == AgeRatingEveryone10Plus || ag == AgeRatingG ||
    ag == AgeRatingKidsToAdults || ag == AgeRatingM ||
    ag == AgeRatingMA15Plus || ag == AgeRatingMature17Plus ||
    ag == AgeRatingPG || ag == AgeRatingR18Plus ||
    ag == AgeRatingRatingPending || ag == AgeRatingTeen ||
    ag == AgeRatingX18Plus

/-- v2.go: the YesNo named string type.  The file declaring it is not under
src/. -/
abbrev YesNo := String

/-- Modelled from the spec: YesNo.IsValid, referenced by ComicInfov2.Validate
(v2.go) but whose defining file is not under src/ — per §2/§6 the tri-state
yes/no field accepts its closed vocabulary plus the empty string, matching
isV1YesNoValid in v1.go. -/
def YesNo.IsValid (v : YesNo) : Bool :=
  v == "" || v == Unknown || v == No || v == Yes

/-- v2.go: the Manga named string type.  The file declaring it is not under
src/. -/
abbrev Manga := String

/-- Modelled from the spec: Manga.IsValid, referenced by ComicInfov2.Validate
(v2.go) but whose defining file is not under src/ — per §2/§6 the manga-mode
field accepts its closed vocabulary plus the empty string, matching
isV2MangaValid in v1.go. -/
def Manga.IsValid (v : Manga) : Bool :=
  v == "" || v == Unknown || v == No || v == Yes || v == YesAndRightToLeft

/-- v1.go: the PageTypeV1 named string type. -/
abbrev PageTypeV1 := String

def FrontCover : String := "FrontCover"

def InnerCover : String := "InnerCover"

def Roundup : String := "Roundup"

def Story : String := "Story"

def Advertisement : String := "Advertisement"

def Editorial : String := "Editorial"

def Letters : String := "Letters"

def Preview : String := "Preview"

def BackCover : String := "BackCover"

def Other : String := "Other"

def Deleted : String := "Deleted"

/-- v1.go: PageTypeV1.Valid — the eleven page roles, without the empty
string. -/
def PageTypeV1.Valid (pt : PageTypeV1) : Bool :=
  pt == FrontCover || pt == InnerCover || pt == Roundup || pt == Story ||
    pt == Advertisement || pt == Editorial || pt == Letters ||
    pt == Preview || pt == BackCover || pt == Other || pt == Deleted

/-- v2.go: the PageType named string type used by PageV2.  The file declaring
it is not under src/. -/
abbrev PageType := String

/-- Modelled from the spec: PageType.Valid, referenced by PageV2.Validate
(v2.go) but whose defining file is not under src/ — per §2 every enumerated
value type (page role included) admits an inclusion test against its allowed
set plus the empty string; the role vocabulary is listed in §3. -/
def PageType.Valid (pt : PageType) : Bool :=
  pt == "" || pt == FrontCover || pt == InnerCover || pt == Roundup ||
    pt == Story || pt == Advertisement || pt == Editorial || pt == Letters ||
    pt == Preview || pt == BackCover || pt == Other || pt == Deleted

/-- v1.go: the revision-1 page descriptor.  Go field `Type` is `Type'` here
(`Type` is reserved in Lean). -/
structure PageV1 where
  Image : Int
  Type' : PageTypeV1
  DoublePage : Bool
  ImageSize : Int
  Key : String
  ImageWidth : Int
  ImageHeight : Int
  deriving DecidableEq

/-- v1.go: PageV1.Validate — role, then width, then height. -/
def PageV1.Validate (p : PageV1) : Except GoErr Unit :=
  if PageTypeV1.Valid p.Type' = false then .error (.pageTypeErr p.Type')
  else if ¬(p.ImageWidth > 0 ∨ p.ImageWidth = -1) then .error .widthErr
  else if ¬(p.ImageHeight > 0 ∨ p.ImageHeight = -1) then .error .heightErr
  else .ok ()

/-- v1.go: the revision-1 page collection, a bare ordered list. -/
abbrev PagesV1 := List PageV1

/-- v1.go: the body of the PagesV1.Validate loop.  `seen` models the Go
key-set map accumulated so far, `i` is the 0-based index of the head. -/
def PagesV1.validateLoop : List PageV1 → List String → Nat → Except GoErr Unit
  | [], _, _ => .ok ()
  | p :: ps, seen, i =>
    if p.Key ∈ seen then .error (.dupKeyErr (i+1) p.Key)
    else match PageV1.Validate p with
      | .error e => .error (.pageErr (i+1) e)
      | .ok _ => PagesV1.validateLoop ps (p.Key :: seen) (i+1)

/-- v1.go: PagesV1.Validate — one pass, duplicate-key check before each
descriptor's own checks. -/
def PagesV1.Validate (ps : PagesV1) : Except GoErr Unit :=
  PagesV1.validateLoop ps [] 0

/-- v2.go: the revision-2 page descriptor (flat shape). -/
structure PageV2 where
  Image : Int
  Type' : PageType
  DoublePage : Bool
  ImageSize : Int
  Key : String
  Bookmark : String
  ImageWidth : Int
  ImageHeight : Int
  deriving DecidableEq

/-- v2.go: PageV2.Validate — role, then width, then height. -/
def PageV2.Validate (p : PageV2) : Except GoErr Unit :=
  if PageType.Valid p.Type' = false then .error (.pageTypeErr p.Type')
  else if ¬(p.ImageWidth > 0 ∨ p.ImageWidth = -1) then .error .widthErr
  else if ¬(p.ImageHeight > 0 ∨ p.ImageHeight = -1) then .error .heightErr
  else .ok ()

/-- v2.go: the revision-2 page collection, a record wrapping the list. -/
structure PagesV2 where
  Pages : List PageV2
  deriving DecidableEq

/-- v2.go: the body of the PagesV2.Validate loop. -/
def PagesV2.validateLoop : List PageV2 → List String → Nat → Except GoErr Unit
  | [], _, _ => .ok ()
  | p :: ps, seen, i =>
    if p.Key ∈ seen then .error (.dupKeyErr (i+1) p.Key)
    else match PageV2.Validate p with
      | .error e => .error (.pageErr (i+1) e)
      | .ok _ => PagesV2.validateLoop ps (p.Key :: seen) (i+1)

/-- v2.go: PagesV2.Validate. -/
def PagesV2.Validate (ps : PagesV2) : Except GoErr Unit :=
  PagesV2.validateLoop ps.Pages [] 0

/-- v2.go: the CommunityRating named float type (values as exact rationals). -/
abbrev CommunityRating := ℚ

/-- v2.go: CommunityRating.IsValid on the nilable pointer — nil is valid;
otherwise bounds then the 2-digit tolerance comparison
`math.Abs(x - math.Round(x*100)/100) > 0.01`. -/
def CommunityRating.IsValid : Option CommunityRating → Bool
  | none => true
  | some cr =>
    if cr < 0 then false
    else if 5 < cr then false
    else if 1/100 < |cr - goRound (cr * 100) / 100| then false
    else true

/-- v1.go draft shape in src: isV2CommunityRatingValid on *float64 — same
checks as CommunityRating.IsValid. -/
def isV2CommunityRatingValid : Option ℚ → Bool
  | none => true
  | some v =>
    if v < 0 then false
    else if 5 < v then false
    else if 1/100 < |v - goRound (v * 100) / 100| then false
    else true

/-- v2.1.go: isV21CommunityRatingValid on *float64 — bounds then the 1-digit
tolerance comparison `math.Abs(x - math.Round(x*10)/10) > 0.1`. -/
def isV21CommunityRatingValid : Option ℚ → Bool
  | none => true
  | some v =>
    if v < 0 then false
    else if 5 < v then false
    else if 1/10 < |v - goRound (v * 10) / 10| then false
    else true

/-- Go encoding/xml `xml.Header` constant: the standard declaration line. -/
def xmlHeader : String := "<?xml version=\"1.0\" encoding=\"UTF-8\"?>\n"

/-- The start element handed to MarshalXML.  Per the documented behavior of
Go encoding/xml (external collaborator), a top-level `Encode(v)` on a named
type with no XMLName field calls MarshalXML with a start element named after
the type. -/
structure StartElement where
  Name : String
  deriving DecidableEq

/-- The root element as produced by `e.EncodeElement(attr{..}, start)` in the
MarshalXML implementations: an element name plus the two injected attributes;
the serialized children are abstracted into `body`. -/
structure RootElement where
  Name : String
  XSI : String
  SchemaLocation : String
  body : String
  deriving DecidableEq

/-- Rendering of the root element to bytes, per the documented output shape
of Go encoding/xml (external collaborator): attributes in field order, then
the children, then the closing tag. -/
def renderRoot (r : RootElement) : String :=
  "<" ++ r.Name ++ " xmlns:xsi=\"" ++ r.XSI ++ "\" xsi:schemaLocation=\"" ++
    r.SchemaLocation ++ "\">" ++ r.body ++ "</" ++ r.Name ++ ">"

/-- v1.go: the revision-1 document. -/
structure ComicInfov1 where
  Title : String
  Series : String
  Number : Int
  Count : Int
  Volume : Int
  AlternateSeries : String
  AlternateNumber : Int
  AlternateCount : Int
  Summary : String
  Notes : String
  Year : Int
  Month : Int
  Publisher : String
  Imprint : String
  Genre : String
  Web : String
  PageCount : Int
  Language : String
  Format : String
  BlackAndWhite : String
  Manga : String
  Pages : PagesV1
  Writer : String
  Penciller : String
  Inker : String
  Colorist : String
  Letterer : String
  CoverArtist : String
  Editor : String
  deriving DecidableEq

/-- v1.go: ComicInfov1.Validate.  Note the URL loop iterates over the tokens
of `ci.Language` (v1.go line 92), not of `ci.Web`. -/
def ComicInfov1.Validate (urlOk langOk : String → Bool) (ci : ComicInfov1) :
    Except GoErr Unit :=
  match urlLoop urlOk 0 (stringsSplitSpace ci.Language) with
  | some (i, t) => .error (.urlErr i t)
  | none =>
    if ci.Language ≠ "" ∧ langOk ci.Language = false then
      .error (.langErr ci.Language)
    else if isV1YesNoValid ci.BlackAndWhite = false then
      .error (.yesNoErr ci.BlackAndWhite)
    else if isV2MangaValid ci.Manga = false then
      .error (.mangaErr ci.Manga)
    else match PagesV1.Validate ci.Pages with
      | .error e => .error (.pagesErr e)
      | .ok _ => .ok ()
where
  /-- The `for index, URL := range ... { if _, err = url.Parse(URL); ... }`
  loop: first token the URL oracle rejects, with its 0-based index. -/
  urlLoop (urlOk : String → Bool) : Nat → List String → Option (Nat × String)
    | _, [] => none
    | i, t :: ts => if urlOk t then urlLoop urlOk (i+1) ts else some (i, t)

/-- v1.go: ComicInfov1.MarshalXML — injects the two schema attributes and
keeps the start element name it was handed (no rename). -/
def ComicInfov1.MarshalXML (bodyEnc : ComicInfov1 → String) (ci : ComicInfov1)
    (start : StartElement) : RootElement :=
  { Name := start.Name
    XSI := xmlnsxni
    SchemaLocation := v1SchemaLocationURL
    body := bodyEnc ci }

/-- v1.go: ComicInfov1.Encode — nil-sink precondition, Validate, header
write, then the encoder (whose top-level start element is named after the Go
type, "ComicInfov1").  `bodyEnc` abstracts encoding/xml's reflection-based
field serialization. -/
def ComicInfov1.Encode (urlOk langOk : String → Bool)
    (bodyEnc : ComicInfov1 → String) (ci : ComicInfov1)
    (output : Option (List String)) :
    Except GoErr Unit × Option (List String) :=
  match output with
  | none => (.error .nilOutput, none)
  | some sink =>
    match ComicInfov1.Validate urlOk langOk ci with
    | .error e => (.error (.validationErr e), some sink)
    | .ok _ =>
      (.ok (), some ((sink ++ [xmlHeader]) ++
        [renderRoot (ComicInfov1.MarshalXML bodyEnc ci ⟨"ComicInfov1"⟩)]))

/-- v2.go: the revision-2 document (flat canonical shape). -/
structure ComicInfov2 where
  Title : String
  Series : String
  Number : Int
  Count : Int
  Volume : Int
  AlternateSeries : String
  AlternateNumber : Int
  AlternateCount : Int
  Summary : String
  Notes : String
  Year : Int
  Month : Int
  Day : Int
  Writer : String
  Penciller : String
  Inker : String
  Colorist : String
  Letterer : String
  CoverArtist : String
  Editor : String
  Publisher : String
  Imprint : String
  Genre : String
  Web : String
  PageCount : Int
  LanguageISO : String
  Format : String
  BlackAndWhite : YesNo
  Manga : Manga
  Characters : String
  Teams : String
  Locations : String
  ScanInformation : String
  StoryArc : String
  SeriesGroup : String
  AgeRating : AgeRating
  Pages : PagesV2
  CommunityRating : Option CommunityRating
  MainCharacterOrTeam : String
  Review : String
  deriving DecidableEq

/-- v2.go: ComicInfov2.Validate — URL tokens of `ci.Web`, language, the three
enums, pages, then the community rating (whose error branch dereferences the
pointer; dereferencing nil is the modelled panic). -/
def ComicInfov2.Validate (urlOk langOk : String → Bool) (ci : ComicInfov2) :
    Except GoErr Unit :=
  match ComicInfov1.Validate.urlLoop urlOk 0 (stringsSplitSpace ci.Web) with
  | some (i, t) => .error (.urlErr i t)
  | none =>
    if ci.LanguageISO ≠ "" ∧ langOk ci.LanguageISO = false then
      .error (.langErr ci.LanguageISO)
    else if YesNo.IsValid ci.BlackAndWhite = false then
      .error (.yesNoErr ci.BlackAndWhite)
    else if Manga.IsValid ci.Manga = false then
      .error (.mangaErr ci.Manga)
    else if AgeRating.IsValid ci.AgeRating = false then
      .error (.ageRatingErr ci.AgeRating)
    else match PagesV2.Validate ci.Pages with
      | .error e => .error (.pagesErr e)
      | .ok _ =>
        if CommunityRating.IsValid ci.CommunityRating = true then .ok ()
        else match ci.CommunityRating with
          | some v => .error (.ratingErr v)
          | none => .error .nilPanic

/-- v2.go: ComicInfov2.MarshalXML — sets the root name to "ComicInfo"
(`start.Name.Local = "ComicInfo"`) and injects the two schema attributes. -/
def ComicInfov2.MarshalXML (bodyEnc : ComicInfov2 → String) (ci : ComicInfov2)
    (_start : StartElement) : RootElement :=
  { Name := "ComicInfo"
    XSI := xmlnsxni
    SchemaLocation := v2SchemaLocationURL
    body := bodyEnc ci }

/-- v2.go: ComicInfov2.Encode — nil-sink precondition, Validate, header
write, then the encoder. -/
def ComicInfov2.Encode (urlOk langOk : String → Bool)
    (bodyEnc : ComicInfov2 → String) (ci : ComicInfov2)
    (output : Option (List String)) :
    Except GoErr Unit × Option (List String) :=
  match output with
  | none => (.error .nilOutput, none)
  | some sink =>
    match ComicInfov2.Validate urlOk langOk ci with
    | .error e => (.error (.validationErr e), some sink)
    | .ok _ =>
      (.ok (), some ((sink ++ [xmlHeader]) ++
        [renderRoot (ComicInfov2.MarshalXML bodyEnc ci ⟨"ComicInfov2"⟩)]))

/-- v2.1.go: the revision-2.1 draft document — embeds ComicInfov2 and adds
its own fields, shadowing CommunityRating and Pages. -/
structure ComicInfov21 where
  ComicInfov2 : ComicInfov2
  Translator : String
  Tags : String
  CommunityRating : Option ℚ
  StoryArcNumber : String
  GTIN : String
  Pages : PagesV2
  deriving DecidableEq

/-- v2.1.go: ComicInfov21.Validate — the embedded revision-2 validation
(which uses the embedded CommunityRating and Pages), then the outer
CommunityRating with the 1-digit rule. -/
def ComicInfov21.Validate (urlOk langOk : String → Bool) (ci : ComicInfov21) :
    Except GoErr Unit :=
  match ComicInfov2.Validate urlOk langOk ci.ComicInfov2 with
  | .error e => .error e
  | .ok _ =>
    if isV21CommunityRatingValid ci.CommunityRating = true then .ok ()
    else match ci.CommunityRating with
      | some v => .error (.ratingErr v)
      | none => .error .nilPanic

/-- v2.1.go: ComicInfov21.MarshalXML — injects the two schema attributes and
keeps the start element name it was handed (no rename). -/
def ComicInfov21.MarshalXML (bodyEnc : ComicInfov21 → String)
    (ci : ComicInfov21) (start : StartElement) : RootElement :=
  { Name := start.Name
    XSI := xmlnsxni
    SchemaLocation := v21SchemaLocationURL
    body := bodyEnc ci }

/-- v2.1.go: ComicInfov21.Encode — nil-sink precondition, Validate, header
write, then the encoder (top-level start element named after the Go type,
"ComicInfov21"). -/
def ComicInfov21.Encode (urlOk langOk : String → Bool)
    (bodyEnc : ComicInfov21 → String) (ci : ComicInfov21)
    (output : Option (List String)) :
    Except GoErr Unit × Option (List String) :=
  match output with
  | none => (.error .nilOutput, none)
  | some sink =>
    match ComicInfov21.Validate urlOk langOk ci with
    | .error e => (.error (.validationErr e), some sink)
    | .ok _ =>
      (.ok (), some ((sink ++ [xmlHeader]) ++
        [renderRoot (ComicInfov21.MarshalXML bodyEnc ci ⟨"ComicInfov21"⟩)]))

/-- Draft shape in src (v1.go related content): revision-2 page descriptor
embedding PageV1 plus a bookmark. -/
structure Draft.PageV2 extends PageV1 where
  Bookmark : String
  deriving DecidableEq

/-- Draft shape: PageV2's Validate is the promoted PageV1.Validate. -/
def Draft.PageV2.Validate (p : Draft.PageV2) : Except GoErr Unit :=
  PageV1.Validate p.toPageV1

/-- Draft shape: the revision-2 page collection, a bare list. -/
abbrev Draft.PagesV2 := List Draft.PageV2

/-- Draft shape: the PagesV2.Validate loop. -/
def Draft.PagesV2.validateLoop :
    List Draft.PageV2 → List String → Nat → Except GoErr Unit
  | [], _, _ => .ok ()
  | p :: ps, seen, i =>
    if p.toPageV1.Key ∈ seen then .error (.dupKeyErr (i+1) p.toPageV1.Key)
    else match Draft.PageV2.Validate p with
      | .error e => .error (.pageErr (i+1) e)
      | .ok _ => Draft.PagesV2.validateLoop ps (p.toPageV1.Key :: seen) (i+1)

/-- Draft shape: PagesV2.Validate. -/
def Draft.PagesV2.Validate (ps : Draft.PagesV2) : Except GoErr Unit :=
  Draft.PagesV2.validateLoop ps [] 0

/-- Draft shape in src (v1.go related content): the revision-2 document that
embeds ComicInfov1 — the shape carrying the legacy-pages rule. -/
structure Draft.ComicInfov2 where
  ComicInfov1 : ComicInfov1
  Day : Int
  Characters : String
  Teams : String
  Locations : String
  ScanInformation : String
  StoryArc : String
  SeriesGroup : String
  AgeRating : String
  Pages : Draft.PagesV2
  CommunityRating : Option ℚ
  MainCharacterOrTeam : String
  Review : String
  deriving DecidableEq

/-- Draft shape (v1.go lines 323-344): Validate — embedded v1 validation,
the legacy-pages rule, age rating, the draft pages, then the rating. -/
def Draft.ComicInfov2.Validate (urlOk langOk : String → Bool)
    (ci : Draft.ComicInfov2) : Except GoErr Unit :=
  match ComicInfov1.Validate urlOk langOk ci.ComicInfov1 with
  | .error e => .error e
  | .ok _ =>
    if ci.ComicInfov1.Pages.length > 0 then .error .legacyPagesErr
    else if isV2AgeRatingValid ci.AgeRating = false then
      .error (.ageRatingErr ci.AgeRating)
    else match Draft.PagesV2.Validate ci.Pages with
      | .error e => .error (.pagesErr e)
      | .ok _ =>
        if isV2CommunityRatingValid ci.CommunityRating = true then .ok ()
        else match ci.CommunityRating with
          | some v => .error (.ratingErr v)
          | none => .error .nilPanic

/-- The always-accepting URL/language oracle (both `url.Parse` and
`language.Parse` succeeding on every submitted token). -/
def allTrue : String → Bool := fun _ => true

/-- An oracle under which exactly the token "bad" fails to parse. -/
def rejectBad : String → Bool := fun s => !(s == "bad")

/-- The zero value of ComicInfov1 (all fields at their Go zero values). -/
def zeroV1 : ComicInfov1 :=
  { Title := "", Series := "", Number := 0, Count := 0, Volume := 0
    AlternateSeries := "", AlternateNumber := 0, AlternateCount := 0
    Summary := "", Notes := "", Year := 0, Month := 0, Publisher := ""
    Imprint := "", Genre := "", Web := "", PageCount := 0, Language := ""
    Format := "", BlackAndWhite := "", Manga := "", Pages := []
    Writer := "", Penciller := "", Inker := "", Colorist := ""
    Letterer := "", CoverArtist := "", Editor := "" }

/-- The zero value of ComicInfov2. -/
def zeroV2 : ComicInfov2 :=
  { Title := "", Series := "", Number := 0, Count := 0, Volume := 0
    AlternateSeries := "", AlternateNumber := 0, AlternateCount := 0
    Summary := "", Notes := "", Year := 0, Month := 0, Day := 0
    Writer := "", Penciller := "", Inker := "", Colorist := ""
    Letterer := "", CoverArtist := "", Editor := "", Publisher := ""
    Imprint := "", Genre := "", Web := "", PageCount := 0, LanguageISO := ""
    Format := "", BlackAndWhite := "", Manga := "", Characters := ""
    Teams := "", Locations := "", ScanInformation := "", StoryArc := ""
    SeriesGroup := "", AgeRating := "", Pages := ⟨[]⟩
    CommunityRating := none, MainCharacterOrTeam := "", Review := "" }

/-- The zero value of ComicInfov21. -/
def zeroV21 : ComicInfov21 :=
  { ComicInfov2 := zeroV2, Translator := "", Tags := ""
    CommunityRating := none, StoryArcNumber := "", GTIN := "", Pages := ⟨[]⟩ }

/-- The zero value of the draft revision-2 document. -/
def zeroDraftV2 : Draft.ComicInfov2 :=
  { ComicInfov1 := zeroV1, Day := 0, Characters := "", Teams := ""
    Locations := "", ScanInformation := "", StoryArc := "", SeriesGroup := ""
    AgeRating := "", Pages := [], CommunityRating := none
    MainCharacterOrTeam := "", Review := "" }

/-- A revision-2 document whose community rating is 4.567 and every other
field is at its zero value. -/
def doc4567 : ComicInfov2 := { zeroV2 with CommunityRating := some (4567/1000) }

/-- A revision-2 document whose community rating is 4.57 and every other
field is at its zero value. -/
def doc457 : ComicInfov2 := { zeroV2 with CommunityRating := some (457/100) }

/-- A valid revision-1 page descriptor with the given key. -/
def storyPage (key : String) : PageV1 :=
  { Image := 0, Type' := "Story", DoublePage := false, ImageSize := 0
    Key := key, ImageWidth := 1, ImageHeight := 1 }

/-- A revision-1 page descriptor with a bogus role but valid dimensions. -/
def bogusRolePage : PageV1 :=
  { Image := 0, Type' := "Bogus", DoublePage := false, ImageSize := 0
    Key := "", ImageWidth := 1, ImageHeight := 1 }

/-- A revision-1 page descriptor with an invalid width (0) and key "a". -/
def badWidthPage : PageV1 :=
  { Image := 0, Type' := "Story", DoublePage := false, ImageSize := 0
    Key := "a", ImageWidth := 0, ImageHeight := 1 }

/-- A draft revision-2 document whose legacy (revision-1-shaped) page
collection is non-empty. -/
def draftWithLegacy : Draft.ComicInfov2 :=
  { zeroDraftV2 with ComicInfov1 := { zeroV1 with Pages := [storyPage "p"] } }

/-- A revision-2 document with an out-of-vocabulary Manga value. -/
def docBadManga : ComicInfov2 := { zeroV2 with Manga := "bogus" }

/-- The tri-state yes/no vocabulary, empty string included. -/
def yesNoVocab : List String := ["", "Unknown", "No", "Yes"]

/-- The manga-mode vocabulary, empty string included. -/
def mangaVocab : List String := ["", "Unknown", "No", "Yes", "YesAndRightToLeft"]

/-- The age-rating vocabulary, empty string included. -/
def ageRatingVocab : List String :=
  ["", "Unknown", "Adults Only 18+", "Early Childhood", "Everyone",
   "Everyone 10+", "G", "Kids to Adults", "M", "MA15+", "Mature 17+", "PG",
   "R18+", "Rating Pending", "Teen", "X18+"]

theorem abs_sub_goRound_le (y : ℚ) : |y - goRound y| ≤ 1/2 := by
  unfold goRound
  split
  · rw [abs_le]
    constructor
    · have := Int.floor_le (y + 1/2)
      push_cast at this ⊢
      linarith
    · have := Int.lt_floor_add_one (y + 1/2)
      push_cast at this ⊢
      linarith
  · rw [abs_le]
    constructor
    · have := Int.ceil_lt_add_one (y - 1/2)
      push_cast at this ⊢
      linarith
    · have := Int.le_ceil (y - 1/2)
      push_cast at this ⊢
      linarith

/-- Every rational is within 1/200 of its 2-digit rounding, so the Go check
`math.Abs(x - math.Round(x*100)/100) > 0.01` can never fire. -/
theorem twoDigit_tolerance (x : ℚ) : |x - goRound (x * 100) / 100| ≤ 1/200 := by
  have h := abs_sub_goRound_le (x * 100)
  rw [abs_le] at h ⊢
  obtain ⟨h1, h2⟩ := h
  constructor <;> [linarith; linarith]

/-- The revision-2 community-rating check on a present value reduces to the
bare bounds check: the 2-digit-precision branch is unreachable. -/
theorem CommunityRating.isValid_some_iff (v : ℚ) :
    CommunityRating.IsValid (some v) = true ↔ 0 ≤ v ∧ v ≤ 5 := by
  have htol : ¬ (1/100 < |v - goRound (v * 100) / 100|) := by
    have := twoDigit_tolerance v
    linarith
  show (if v < 0 then false
        else if 5 < v then false
        else if 1/100 < |v - goRound (v * 100) / 100| then false
        else true) = true ↔ 0 ≤ v ∧ v ≤ 5
  constructor
  · intro hv
    split_ifs at hv with hneg hbig
    exact ⟨le_of_not_lt hneg, le_of_not_lt hbig⟩
  · rintro ⟨h0, h5⟩
    rw [if_neg (not_lt.2 h0), if_neg (not_lt.2 h5), if_neg htol]

/-- C1.  The claim fails on the code: for revision 1 the URL check tokenizes
`ci.Language`, not `ci.Web` (v1.go line 92).  Under an oracle that rejects
exactly the token "bad": a revision-1 document whose Web field is "bad"
validates successfully (the claim requires a failure at token #0), while the
same value placed in the Language field produces the URL error; revision 2
does draw the tokens from Web. -/
theorem c1_url_tokens_come_from_language :
    ComicInfov1.Validate rejectBad allTrue { zeroV1 with Web := "bad" } =
      .ok () ∧
    ComicInfov1.Validate rejectBad allTrue { zeroV1 with Language := "bad" } =
      .error (.urlErr 0 "bad") ∧
    ComicInfov2.Validate rejectBad allTrue { zeroV2 with Web := "bad" } =
      .error (.urlErr 0 "bad") :=
  ⟨rfl, rfl, rfl⟩

/-- C2.  The claim fails on the code: the 2-digit-precision branch of the
community-rating check is dead code (every value is within 0.005 of its
2-digit rounding while the tolerance is 0.01), so a present rating is valid
iff it lies in [0, 5]; in particular a revision-2 document with rating 4.567
passes validation even though the claim requires a precision error (4.57
passes as well, as the claim says). -/
theorem c2_rating_precision_unenforced :
    (∀ v : ℚ, CommunityRating.IsValid (some v) = true ↔ 0 ≤ v ∧ v ≤ 5) ∧
    ComicInfov2.Validate allTrue allTrue doc4567 = .ok () ∧
    ComicInfov2.Validate allTrue allTrue doc457 = .ok () := by
  refine ⟨CommunityRating.isValid_some_iff, ?_, ?_⟩
  · have h : CommunityRating.IsValid (some ((4567 : ℚ)/1000)) = true := by
      rw [CommunityRating.isValid_some_iff]
      norm_num
    show (if CommunityRating.IsValid (some ((4567 : ℚ)/1000)) = true then
            (Except.ok () : Except GoErr Unit)
          else .error (.ratingErr ((4567 : ℚ)/1000))) = .ok ()
    rw [if_pos h]
  · have h : CommunityRating.IsValid (some ((457 : ℚ)/100)) = true := by
      rw [CommunityRating.isValid_some_iff]
      norm_num
    show (if CommunityRating.IsValid (some ((457 : ℚ)/100)) = true then
            (Except.ok () : Except GoErr Unit)
          else .error (.ratingErr ((457 : ℚ)/100))) = .ok ()
    rw [if_pos h]

/-- C8.  Each enumerated-field validity predicate accepts exactly the empty
string plus its closed vocabulary and rejects every other string. -/
theorem c8_enum_vocabularies (s : String) :
    (isV1YesNoValid s = true ↔ s ∈ yesNoVocab) ∧
    (isV2MangaValid s = true ↔ s ∈ mangaVocab) ∧
    (AgeRating.IsValid s = true ↔ s ∈ ageRatingVocab) := by
  refine ⟨?_, ?_, ?_⟩ <;>
  · simp only [isV1YesNoValid, isV2MangaValid, AgeRating.IsValid, yesNoVocab,
      mangaVocab, ageRatingVocab, Unknown, No, Yes, YesAndRightToLeft,
      AgeRatingUnknown, AgeRatingAdultsOnly18Plus, AgeRatingEarlyChildhood,
      AgeRatingEveryone, AgeRatingEveryone10Plus, AgeRatingG,
      AgeRatingKidsToAdults, AgeRatingM, AgeRatingMA15Plus,
      AgeRatingMature17Plus, AgeRatingPG, AgeRatingR18Plus,
      AgeRatingRatingPending, AgeRatingTeen, AgeRatingX18Plus,
      Bool.or_eq_true, beq_iff_eq, List.mem_cons, List.not_mem_nil, or_false]
    tauto

/-- C4.  The claim fails on the code for revisions 1 and 2.1: their
MarshalXML implementations keep the start-element name handed to them by the
encoder, which per encoding/xml's documented naming rule is the Go type name
("ComicInfov1" / "ComicInfov21"), not "ComicInfo"; only revision 2 renames
the root (`start.Name.Local = "ComicInfo"`, v2.go line 88).  The header line
and the two schema attributes are as claimed for all three revisions. -/
theorem c4_root_element_name (b1 : ComicInfov1 → String)
    (b2 : ComicInfov2 → String) (b21 : ComicInfov21 → String) :
    (ComicInfov1.Encode allTrue allTrue b1 zeroV1 (some []) =
      (.ok (), some [xmlHeader, renderRoot
        { Name := "ComicInfov1", XSI := xmlnsxni,
          SchemaLocation := v1SchemaLocationURL, body := b1 zeroV1 }])) ∧
    (ComicInfov21.Encode allTrue allTrue b21 zeroV21 (some []) =
      (.ok (), some [xmlHeader, renderRoot
        { Name := "ComicInfov21", XSI := xmlnsxni,
          SchemaLocation := v21SchemaLocationURL, body := b21 zeroV21 }])) ∧
    ("ComicInfov1" ≠ "ComicInfo") ∧ ("ComicInfov21" ≠ "ComicInfo") ∧
    (∀ (ci : ComicInfov2) (start : StartElement),
      (ComicInfov2.MarshalXML b2 ci start).Name = "ComicInfo") :=
  ⟨rfl, rfl, by decide, by decide, fun _ _ => rfl⟩

/-- C7.  Encode with a nil sink reports the precondition error (whatever the
document's validity, i.e. without consulting Validate), and whenever
Validate fails, Encode returns that error wrapped as a validation failure
and leaves the sink's write log unchanged. -/
theorem c7_encode_preconditions (urlOk langOk : String → Bool)
    (bodyEnc : ComicInfov2 → String) (ci : ComicInfov2) :
    ComicInfov2.Encode urlOk langOk bodyEnc ci none =
      (.error .nilOutput, none) ∧
    ∀ (sink : List String) (e : GoErr),
      ComicInfov2.Validate urlOk langOk ci = .error e →
      ComicInfov2.Encode urlOk langOk bodyEnc ci (some sink) =
        (.error (.validationErr e), some sink) := by
  refine ⟨rfl, fun sink e h => ?_⟩
  unfold ComicInfov2.Encode
  rw [h]

/-- Witness for C7 at a concrete invalid document: a revision-2 document
with Manga = "bogus" fails validation and Encode leaves the sink's log
unchanged. -/
theorem c7_encode_preconditions_witness :
    ComicInfov2.Encode allTrue allTrue (fun _ => "") docBadManga
      (some ["previous"]) =
      (.error (.validationErr (.mangaErr "bogus")), some ["previous"]) :=
  (c7_encode_preconditions allTrue allTrue (fun _ => "") docBadManga).2
    ["previous"] (.mangaErr "bogus") rfl

/-- C9.  Encode is deterministic in the document value: for any two initial
sink logs, the outcome statuses agree and the writes appended beyond each
initial log are identical — in particular encoding the same document twice
into two empty sinks yields byte-identical output. -/
theorem c9_encode_deterministic (urlOk langOk : String → Bool)
    (bodyEnc : ComicInfov2 → String) (ci : ComicInfov2) (l1 l2 : List String) :
    (ComicInfov2.Encode urlOk langOk bodyEnc ci (some l1)).1 =
      (ComicInfov2.Encode urlOk langOk bodyEnc ci (some l2)).1 ∧
    ((ComicInfov2.Encode urlOk langOk bodyEnc ci (some l1)).2).map
        (fun l => l.drop l1.length) =
      ((ComicInfov2.Encode urlOk langOk bodyEnc ci (some l2)).2).map
        (fun l => l.drop l2.length) := by
  rcases h : ComicInfov2.Validate urlOk langOk ci with e | u <;>
    simp [ComicInfov2.Encode, h, List.drop_length, List.append_assoc,
      List.drop_left]

theorem pageV1_validate_ok_iff (p : PageV1) :
    PageV1.Validate p = .ok () ↔
      (PageTypeV1.Valid p.Type' = true ∧
        (p.ImageWidth > 0 ∨ p.ImageWidth = -1) ∧
        (p.ImageHeight > 0 ∨ p.ImageHeight = -1)) := by
  unfold PageV1.Validate
  split_ifs with h1 h2 h3 <;> simp_all [Bool.not_eq_false]

theorem pageV2_validate_ok_iff (p : PageV2) :
    PageV2.Validate p = .ok () ↔
      (PageType.Valid p.Type' = true ∧
        (p.ImageWidth > 0 ∨ p.ImageWidth = -1) ∧
        (p.ImageHeight > 0 ∨ p.ImageHeight = -1)) := by
  unfold PageV2.Validate
  split_ifs with h1 h2 h3 <;> simp_all [Bool.not_eq_false]

theorem pagesV1_loop_ok_iff (ps : List PageV1) (seen : List String)
    (i : Nat) :
    PagesV1.validateLoop ps seen i = .ok () ↔
      ((ps.map PageV1.Key).Nodup ∧ (∀ p ∈ ps, p.Key ∉ seen) ∧
        ∀ p ∈ ps, PageV1.Validate p = .ok ()) := by
  induction ps generalizing seen i with
  | nil => simp [PagesV1.validateLoop]
  | cons p ps ih =>
    by_cases hk : p.Key ∈ seen
    · simp only [PagesV1.validateLoop, if_pos hk]
      constructor
      · intro h
        exact absurd h (by simp)
      · rintro ⟨-, hseen, -⟩
        exact absurd hk (hseen p (List.mem_cons_self p ps))
    · rcases hv : PageV1.Validate p with e | u
      · simp only [PagesV1.validateLoop, if_neg hk, hv]
        constructor
        · intro h
          exact absurd h (by simp)
        · rintro ⟨-, -, hval⟩
          have h2 := hval p (List.mem_cons_self p ps)
          rw [hv] at h2
          exact absurd h2 (by simp)
      · simp only [PagesV1.validateLoop, if_neg hk, hv, ih]
        constructor
        · rintro ⟨hnd, hseen, hval⟩
          refine ⟨?_, ?_, ?_⟩
          · rw [List.map_cons, List.nodup_cons]
            refine ⟨fun hmem => ?_, hnd⟩
            obtain ⟨q, hq, hqkey⟩ := List.mem_map.1 hmem
            exact hseen q hq (hqkey ▸ List.mem_cons_self p.Key seen)
          · intro q hq
            rcases List.mem_cons.1 hq with rfl | hq2
            · exact hk
            · exact fun hmem => hseen q hq2 (List.mem_cons_of_mem _ hmem)
          · intro q hq
            rcases List.mem_cons.1 hq with rfl | hq2
            · exact hv
            · exact hval q hq2
        · rintro ⟨hnd, hseen, hval⟩
          rw [List.map_cons, List.nodup_cons] at hnd
          refine ⟨hnd.2, ?_, ?_⟩
          · intro q hq hmem
            rcases List.mem_cons.1 hmem with heq | hmem2
            · exact hnd.1 (heq ▸ List.mem_map_of_mem PageV1.Key hq)
            · exact hseen q (List.mem_cons_of_mem _ hq) hmem2
          · exact fun q hq => hval q (List.mem_cons_of_mem _ hq)

theorem pagesV2_loop_ok_iff (ps : List PageV2) (seen : List String)
    (i : Nat) :
    PagesV2.validateLoop ps seen i = .ok () ↔
      ((ps.map PageV2.Key).Nodup ∧ (∀ p ∈ ps, p.Key ∉ seen) ∧
        ∀ p ∈ ps, PageV2.Validate p = .ok ()) := by
  induction ps generalizing seen i with
  | nil => simp [PagesV2.validateLoop]
  | cons p ps ih =>
    by_cases hk : p.Key ∈ seen
    · simp only [PagesV2.validateLoop, if_pos hk]
      constructor
      · intro h
        exact absurd h (by simp)
      · rintro ⟨-, hseen, -⟩
        exact absurd hk (hseen p (List.mem_cons_self p ps))
    · rcases hv : PageV2.Validate p with e | u
      · simp only [PagesV2.validateLoop, if_neg hk, hv]
        constructor
        · intro h
          exact absurd h (by simp)
        · rintro ⟨-, -, hval⟩
          have h2 := hval p (List.mem_cons_self p ps)
          rw [hv] at h2
          exact absurd h2 (by simp)
      · simp only [PagesV2.validateLoop, if_neg hk, hv, ih]
        constructor
        · rintro ⟨hnd, hseen, hval⟩
          refine ⟨?_, ?_, ?_⟩
          · rw [List.map_cons, List.nodup_cons]
            refine ⟨fun hmem => ?_, hnd⟩
            obtain ⟨q, hq, hqkey⟩ := List.mem_map.1 hmem
            exact hseen q hq (hqkey ▸ List.mem_cons_self p.Key seen)
          · intro q hq
            rcases List.mem_cons.1 hq with rfl | hq2
            · exact hk
            · exact fun hmem => hseen q hq2 (List.mem_cons_of_mem _ hmem)
          · intro q hq
            rcases List.mem_cons.1 hq with rfl | hq2
            · exact hv
            · exact hval q hq2
        · rintro ⟨hnd, hseen, hval⟩
          rw [List.map_cons, List.nodup_cons] at hnd
          refine ⟨hnd.2, ?_, ?_⟩
          · intro q hq hmem
            rcases List.mem_cons.1 hmem with heq | hmem2
            · exact hnd.1 (heq ▸ List.mem_map_of_mem PageV2.Key hq)
            · exact hseen q (List.mem_cons_of_mem _ hq) hmem2
          · exact fun q hq => hval q (List.mem_cons_of_mem _ hq)

theorem pagesV1_loop_dup (l : List PageV1) :
    ∀ (r : List PageV1) (p : PageV1) (seen : List String) (i : Nat),
      (∀ q ∈ l, PageV1.Validate q = .ok ()) →
      (∀ q ∈ l, q.Key ∉ seen) →
      (l.map PageV1.Key).Nodup →
      (p.Key ∈ l.map PageV1.Key ∨ p.Key ∈ seen) →
      PagesV1.validateLoop (l ++ p :: r) seen i =
        .error (.dupKeyErr (i + l.length + 1) p.Key) := by
  induction l with
  | nil =>
    intro r p seen i _ _ _ hdup
    have hin : p.Key ∈ seen := by simpa using hdup
    simp [PagesV1.validateLoop, hin]
  | cons q l ih =>
    intro r p seen i hval hdisj hnd hdup
    have hq : q.Key ∉ seen := hdisj q (List.mem_cons_self q l)
    have hqv : PageV1.Validate q = .ok () := hval q (List.mem_cons_self q l)
    rw [List.map_cons, List.nodup_cons] at hnd
    have heq := ih r p (q.Key :: seen) (i+1)
      (fun x hx => hval x (List.mem_cons_of_mem _ hx))
      (fun x hx hmem => by
        rcases List.mem_cons.1 hmem with hxq | hmem2
        · exact hnd.1 (hxq ▸ List.mem_map_of_mem PageV1.Key hx)
        · exact hdisj x (List.mem_cons_of_mem _ hx) hmem2)
      hnd.2
      (by
        rcases hdup with hmap | hseen
        · rw [List.map_cons, List.mem_cons] at hmap
          rcases hmap with hpq | hmap2
          · exact Or.inr (hpq ▸ List.mem_cons_self q.Key seen)
          · exact Or.inl hmap2
        · exact Or.inr (List.mem_cons_of_mem _ hseen))
    rw [List.cons_append]
    simp only [PagesV1.validateLoop, if_neg hq, hqv]
    rw [heq]
    have harith : (i+1) + l.length + 1 = i + (q :: l).length + 1 := by
      simp only [List.length_cons]
      omega
    rw [harith]

theorem pagesV2_loop_dup (l : List PageV2) :
    ∀ (r : List PageV2) (p : PageV2) (seen : List String) (i : Nat),
      (∀ q ∈ l, PageV2.Validate q = .ok ()) →
      (∀ q ∈ l, q.Key ∉ seen) →
      (l.map PageV2.Key).Nodup →
      (p.Key ∈ l.map PageV2.Key ∨ p.Key ∈ seen) →
      PagesV2.validateLoop (l ++ p :: r) seen i =
        .error (.dupKeyErr (i + l.length + 1) p.Key) := by
  induction l with
  | nil =>
    intro r p seen i _ _ _ hdup
    have hin : p.Key ∈ seen := by simpa using hdup
    simp [PagesV2.validateLoop, hin]
  | cons q l ih =>
    intro r p seen i hval hdisj hnd hdup
    have hq : q.Key ∉ seen := hdisj q (List.mem_cons_self q l)
    have hqv : PageV2.Validate q = .ok () := hval q (List.mem_cons_self q l)
    rw [List.map_cons, List.nodup_cons] at hnd
    have heq := ih r p (q.Key :: seen) (i+1)
      (fun x hx => hval x (List.mem_cons_of_mem _ hx))
      (fun x hx hmem => by
        rcases List.mem_cons.1 hmem with hxq | hmem2
        · exact hnd.1 (hxq ▸ List.mem_map_of_mem PageV2.Key hx)
        · exact hdisj x (List.mem_cons_of_mem _ hx) hmem2)
      hnd.2
      (by
        rcases hdup with hmap | hseen
        · rw [List.map_cons, List.mem_cons] at hmap
          rcases hmap with hpq | hmap2
          · exact Or.inr (hpq ▸ List.mem_cons_self q.Key seen)
          · exact Or.inl hmap2
        · exact Or.inr (List.mem_cons_of_mem _ hseen))
    rw [List.cons_append]
    simp only [PagesV2.validateLoop, if_neg hq, hqv]
    rw [heq]
    have harith : (i+1) + l.length + 1 = i + (q :: l).length + 1 := by
      simp only [List.length_cons]
      omega
    rw [harith]

theorem pagesV1_loop_bad (l : List PageV1) :
    ∀ (r : List PageV1) (p : PageV1) (seen : List String) (i : Nat)
      (e : GoErr),
      (∀ q ∈ l, PageV1.Validate q = .ok ()) →
      (∀ q ∈ l, q.Key ∉ seen) →
      (l.map PageV1.Key).Nodup →
      p.Key ∉ l.map PageV1.Key → p.Key ∉ seen →
      PageV1.Validate p = .error e →
      PagesV1.validateLoop (l ++ p :: r) seen i =
        .error (.pageErr (i + l.length + 1) e) := by
  induction l with
  | nil =>
    intro r p seen i e _ _ _ _ hps hpe
    simp [PagesV1.validateLoop, hps, hpe]
  | cons q l ih =>
    intro r p seen i e hval hdisj hnd hpmap hpseen hpe
    have hq : q.Key ∉ seen := hdisj q (List.mem_cons_self q l)
    have hqv : PageV1.Validate q = .ok () := hval q (List.mem_cons_self q l)
    rw [List.map_cons, List.nodup_cons] at hnd
    rw [List.map_cons] at hpmap
    have heq := ih r p (q.Key :: seen) (i+1) e
      (fun x hx => hval x (List.mem_cons_of_mem _ hx))
      (fun x hx hmem => by
        rcases List.mem_cons.1 hmem with hxq | hmem2
        · exact hnd.1 (hxq ▸ List.mem_map_of_mem PageV1.Key hx)
        · exact hdisj x (List.mem_cons_of_mem _ hx) hmem2)
      hnd.2
      (fun hmem => hpmap (List.mem_cons_of_mem _ hmem))
      (fun hmem => by
        rcases List.mem_cons.1 hmem with hpq | hmem2
        · exact hpmap (hpq ▸ List.mem_cons_self q.Key (l.map PageV1.Key))
        · exact hpseen hmem2)
      hpe
    rw [List.cons_append]
    simp only [PagesV1.validateLoop, if_neg hq, hqv]
    rw [heq]
    have harith : (i+1) + l.length + 1 = i + (q :: l).length + 1 := by
      simp only [List.length_cons]
      omega
    rw [harith]

theorem pagesV2_loop_bad (l : List PageV2) :
    ∀ (r : List PageV2) (p : PageV2) (seen : List String) (i : Nat)
      (e : GoErr),
      (∀ q ∈ l, PageV2.Validate q = .ok ()) →
      (∀ q ∈ l, q.Key ∉ seen) →
      (l.map PageV2.Key).Nodup →
      p.Key ∉ l.map PageV2.Key → p.Key ∉ seen →
      PageV2.Validate p = .error e →
      PagesV2.validateLoop (l ++ p :: r) seen i =
        .error (.pageErr (i + l.length + 1) e) := by
  induction l with
  | nil =>
    intro r p seen i e _ _ _ _ hps hpe
    simp [PagesV2.validateLoop, hps, hpe]
  | cons q l ih =>
    intro r p seen i e hval hdisj hnd hpmap hpseen hpe
    have hq : q.Key ∉ seen := hdisj q (List.mem_cons_self q l)
    have hqv : PageV2.Validate q = .ok () := hval q (List.mem_cons_self q l)
    rw [List.map_cons, List.nodup_cons] at hnd
    rw [List.map_cons] at hpmap
    have heq := ih r p (q.Key :: seen) (i+1) e
      (fun x hx => hval x (List.mem_cons_of_mem _ hx))
      (fun x hx hmem => by
        rcases List.mem_cons.1 hmem with hxq | hmem2
        · exact hnd.1 (hxq ▸ List.mem_map_of_mem PageV2.Key hx)
        · exact hdisj x (List.mem_cons_of_mem _ hx) hmem2)
      hnd.2
      (fun hmem => hpmap (List.mem_cons_of_mem _ hmem))
      (fun hmem => by
        rcases List.mem_cons.1 hmem with hpq | hmem2
        · exact hpmap (hpq ▸ List.mem_cons_self q.Key (l.map PageV2.Key))
        · exact hpseen hmem2)
      hpe
    rw [List.cons_append]
    simp only [PagesV2.validateLoop, if_neg hq, hqv]
    rw [heq]
    have harith : (i+1) + l.length + 1 = i + (q :: l).length + 1 := by
      simp only [List.length_cons]
      omega
    rw [harith]

/-- C3 counterexample: a single-descriptor collection with a distinct key
and valid dimensions but an out-of-vocabulary page role fails validation,
refuting the claimed "iff" (which omits the role rule). -/
theorem c3_counterexample :
    (([bogusRolePage] : List PageV1).map PageV1.Key).Nodup ∧
    (bogusRolePage.ImageWidth > 0 ∨ bogusRolePage.ImageWidth = -1) ∧
    (bogusRolePage.ImageHeight > 0 ∨ bogusRolePage.ImageHeight = -1) ∧
    PagesV1.Validate [bogusRolePage] =
      .error (.pageErr 1 (.pageTypeErr "Bogus")) := by
  refine ⟨?_, ?_, ?_, rfl⟩ <;> decide

/-- C3 amended: for both page-collection shapes, Validate succeeds iff the
keys are pairwise distinct and every descriptor has a valid role and each of
width/height positive or exactly −1. -/
theorem c3_amended_pages_validate_iff (ps1 : PagesV1) (ps2 : PagesV2) :
    (PagesV1.Validate ps1 = .ok () ↔
      ((ps1.map PageV1.Key).Nodup ∧ ∀ p ∈ ps1,
        PageTypeV1.Valid p.Type' = true ∧
        (p.ImageWidth > 0 ∨ p.ImageWidth = -1) ∧
        (p.ImageHeight > 0 ∨ p.ImageHeight = -1))) ∧
    (PagesV2.Validate ps2 = .ok () ↔
      ((ps2.Pages.map PageV2.Key).Nodup ∧ ∀ p ∈ ps2.Pages,
        PageType.Valid p.Type' = true ∧
        (p.ImageWidth > 0 ∨ p.ImageWidth = -1) ∧
        (p.ImageHeight > 0 ∨ p.ImageHeight = -1))) := by
  constructor
  · rw [PagesV1.Validate, pagesV1_loop_ok_iff]
    simp [pageV1_validate_ok_iff, forall_and]
  · rw [PagesV2.Validate, pagesV2_loop_ok_iff]
    simp [pageV2_validate_ok_iff, forall_and]

/-- Witness for the amended C3 at concrete collections: a one-page
collection with a valid role and dimensions validates, as does the empty
wrapped collection. -/
theorem c3_amended_pages_validate_iff_witness :
    PagesV1.Validate [storyPage "a"] = .ok () ∧
    PagesV2.Validate ⟨[]⟩ = .ok () :=
  ⟨(c3_amended_pages_validate_iff [storyPage "a"] ⟨[]⟩).1.mpr (by decide),
   (c3_amended_pages_validate_iff [storyPage "a"] ⟨[]⟩).2.mpr (by decide)⟩

/-- C6 counterexample: a collection containing both a duplicate key (key "a"
at 1-based positions 1 and 2) and an invalid descriptor (width 0 at position
1) reports the descriptor error of position 1, not the duplicate-key error
the claim requires. -/
theorem c6_counterexample :
    PagesV1.Validate [badWidthPage, storyPage "a"] =
      .error (.pageErr 1 .widthErr) ∧
    PagesV1.Validate [badWidthPage, storyPage "a"] ≠
      .error (.dupKeyErr 2 "a") := by
  exact ⟨by decide, by decide⟩

/-- C6 amended: the checks run interleaved in one pass, the duplicate-key
check preceding each descriptor's own checks, so the failure at the earlier
position is the one reported — the duplicate-key error (with its 1-based
position) exactly when every descriptor strictly before the first duplicate
position is valid.  Both halves are proved, for both collection shapes: when
the descriptors before the duplicating entry are all valid, the duplicate-key
error at that entry's 1-based position is returned (even if that entry's own
descriptor is invalid, the key check coming first); and when an entry with
fresh key and invalid descriptor precedes any duplication, its wrapped
descriptor error at its 1-based position is returned instead, whatever
follows it. -/
theorem c6_amended_dup_priority (l r : List PageV1) (p : PageV1) (e : GoErr)
    (l2 r2 : List PageV2) (p2 : PageV2) (e2 : GoErr) :
    ((∀ q ∈ l, PageV1.Validate q = .ok ()) → (l.map PageV1.Key).Nodup →
      p.Key ∈ l.map PageV1.Key →
      PagesV1.Validate (l ++ p :: r) =
        .error (.dupKeyErr (l.length + 1) p.Key)) ∧
    ((∀ q ∈ l, PageV1.Validate q = .ok ()) → (l.map PageV1.Key).Nodup →
      p.Key ∉ l.map PageV1.Key → PageV1.Validate p = .error e →
      PagesV1.Validate (l ++ p :: r) =
        .error (.pageErr (l.length + 1) e)) ∧
    ((∀ q ∈ l2, PageV2.Validate q = .ok ()) → (l2.map PageV2.Key).Nodup →
      p2.Key ∈ l2.map PageV2.Key →
      PagesV2.Validate ⟨l2 ++ p2 :: r2⟩ =
        .error (.dupKeyErr (l2.length + 1) p2.Key)) ∧
    ((∀ q ∈ l2, PageV2.Validate q = .ok ()) → (l2.map PageV2.Key).Nodup →
      p2.Key ∉ l2.map PageV2.Key → PageV2.Validate p2 = .error e2 →
      PagesV2.Validate ⟨l2 ++ p2 :: r2⟩ =
        .error (.pageErr (l2.length + 1) e2)) := by
  refine ⟨?_, ?_, ?_, ?_⟩
  · intro hval hnd hdup
    have h := pagesV1_loop_dup l r p [] 0 hval (by simp) hnd
      (Or.inl hdup)
    simpa using h
  · intro hval hnd hfresh hbad
    have h := pagesV1_loop_bad l r p [] 0 e hval (by simp) hnd hfresh
      (by simp) hbad
    simpa using h
  · intro hval hnd hdup
    have h := pagesV2_loop_dup l2 r2 p2 [] 0 hval (by simp) hnd
      (Or.inl hdup)
    simpa using h
  · intro hval hnd hfresh hbad
    have h := pagesV2_loop_bad l2 r2 p2 [] 0 e2 hval (by simp) hnd hfresh
      (by simp) hbad
    simpa using h

/-- Witness for the amended C6 at concrete inputs, one per half and shape:
a valid page keyed "a" followed by a descriptor repeating key "a" (itself
with an invalid width) reports the duplicate-key error at position 2; a
valid page keyed "a" followed by a fresh-keyed descriptor with invalid width
and then a duplicate of "a" reports the descriptor error at position 2. -/
theorem c6_amended_dup_priority_witness :
    (PagesV1.Validate [storyPage "a", badWidthPage] =
      .error (.dupKeyErr 2 "a")) ∧
    (PagesV1.Validate [storyPage "a",
        ⟨0, "Story", false, 0, "b", 0, 1⟩, storyPage "a"] =
      .error (.pageErr 2 .widthErr)) ∧
    (PagesV2.Validate ⟨[⟨0, "Story", false, 0, "a", "", 1, 1⟩,
        ⟨0, "Story", false, 0, "a", "", 0, 1⟩]⟩ =
      .error (.dupKeyErr 2 "a")) ∧
    (PagesV2.Validate ⟨[⟨0, "Story", false, 0, "a", "", 1, 1⟩,
        ⟨0, "Story", false, 0, "b", "", 0, 1⟩,
        ⟨0, "Story", false, 0, "a", "", 1, 1⟩]⟩ =
      .error (.pageErr 2 .widthErr)) := by
  refine ⟨?_, ?_, ?_, ?_⟩
  · exact (c6_amended_dup_priority [storyPage "a"] [] badWidthPage .widthErr
      [] [] ⟨0, "", false, 0, "", "", 0, 0⟩ .widthErr).1
      (by decide) (by decide) (by decide)
  · exact (c6_amended_dup_priority [storyPage "a"] [storyPage "a"]
      ⟨0, "Story", false, 0, "b", 0, 1⟩ .widthErr
      [] [] ⟨0, "", false, 0, "", "", 0, 0⟩ .widthErr).2.1
      (by decide) (by decide) (by decide) (by decide)
  · exact (c6_amended_dup_priority [] [] ⟨0, "", false, 0, "", 0, 0⟩
      .widthErr [⟨0, "Story", false, 0, "a", "", 1, 1⟩] []
      ⟨0, "Story", false, 0, "a", "", 0, 1⟩ .widthErr).2.2.1
      (by decide) (by decide) (by decide)
  · exact (c6_amended_dup_priority [] [] ⟨0, "", false, 0, "", 0, 0⟩
      .widthErr [⟨0, "Story", false, 0, "a", "", 1, 1⟩]
      [⟨0, "Story", false, 0, "a", "", 1, 1⟩]
      ⟨0, "Story", false, 0, "b", "", 0, 1⟩ .widthErr).2.2.2
      (by decide) (by decide) (by decide) (by decide)

/-- The revision-1 validator never produces the legacy-pages error (its
error set is URL, language, the two enums and wrapped page errors). -/
theorem ComicInfov1.validate_ne_legacy (urlOk langOk : String → Bool)
    (ci : ComicInfov1) :
    ComicInfov1.Validate urlOk langOk ci ≠ .error .legacyPagesErr := by
  unfold ComicInfov1.Validate
  split
  · intro h
    simp at h
  · split_ifs
    · intro h
      simp at h
    · intro h
      simp at h
    · intro h
      simp at h
    · split <;> intro h <;> simp at h

/-- C5.  In the revision-2 shape that embeds the revision-1 document
(the draft shape in src carrying the legacy-pages rule), Validate returns
an error whenever the inherited revision-1 page collection is non-empty,
and the legacy-pages error never arises when that collection is empty. -/
theorem c5_legacy_pages_rule (urlOk langOk : String → Bool)
    (d : Draft.ComicInfov2) :
    (d.ComicInfov1.Pages ≠ [] →
      ∃ e, Draft.ComicInfov2.Validate urlOk langOk d = .error e) ∧
    (d.ComicInfov1.Pages = [] →
      Draft.ComicInfov2.Validate urlOk langOk d ≠ .error .legacyPagesErr) := by
  constructor
  · intro hne
    unfold Draft.ComicInfov2.Validate
    split
    · rename_i e heq
      exact ⟨e, rfl⟩
    · refine ⟨.legacyPagesErr, ?_⟩
      rw [if_pos (by simpa using List.length_pos.2 hne)]
  · intro hemp
    unfold Draft.ComicInfov2.Validate
    split
    · rename_i e heq
      intro hc
      injection hc with hc2
      exact ComicInfov1.validate_ne_legacy urlOk langOk d.ComicInfov1
        (by rw [heq, hc2])
    · intro hc
      rw [if_neg (by simp [hemp])] at hc
      split at hc
      · simp at hc
      · split at hc
        · simp at hc
        · split at hc
          · simp at hc
          · split at hc <;> simp at hc

/-- Witness for C5: a draft document with one legacy page fails validation,
and the zero draft document never triggers the legacy-pages error. -/
theorem c5_legacy_pages_rule_witness :
    (∃ e, Draft.ComicInfov2.Validate allTrue allTrue draftWithLegacy =
      .error e) ∧
    Draft.ComicInfov2.Validate allTrue allTrue zeroDraftV2 ≠
      .error .legacyPagesErr :=
  ⟨(c5_legacy_pages_rule allTrue allTrue draftWithLegacy).1 (by decide),
   (c5_legacy_pages_rule allTrue allTrue zeroDraftV2).2 (by decide)⟩

theorem pageV2_validate_noPanic (p : PageV2) :
    resultHasNilPanic (PageV2.Validate p) = false := by
  unfold PageV2.Validate
  split_ifs <;> rfl

theorem pagesV2_loop_noPanic (ps : List PageV2) (seen : List String)
    (i : Nat) : resultHasNilPanic (PagesV2.validateLoop ps seen i) = false := by
  induction ps generalizing seen i with
  | nil => rfl
  | cons p ps ih =>
    simp only [PagesV2.validateLoop]
    split
    · rfl
    · rcases hv : PageV2.Validate p with e | u
      · have h2 := pageV2_validate_noPanic p
        rw [hv] at h2
        simpa [resultHasNilPanic, GoErr.hasNilPanic] using h2
      · exact ih (p.Key :: seen) (i+1)

/-- Revision-2 validation never produces the nil-rating-dereference panic
(wrapped or not): the rating check accepts a nil pointer, so the formatting
branch that dereferences it is unreachable. -/
theorem v2_validate_noPanic (urlOk langOk : String → Bool)
    (ci : ComicInfov2) :
    resultHasNilPanic (ComicInfov2.Validate urlOk langOk ci) = false := by
  unfold ComicInfov2.Validate
  split
  · rfl
  · split
    · rfl
    · split
      · rfl
      · split
        · rfl
        · split
          · rfl
          · split
            · rename_i e heq
              have hl : resultHasNilPanic (PagesV2.Validate ci.Pages) =
                  false := pagesV2_loop_noPanic ci.Pages.Pages [] 0
              rw [heq] at hl
              simpa [resultHasNilPanic, GoErr.hasNilPanic] using hl
            · split
              · rfl
              · split
                · rfl
                · rename_i hvalid hopt heq
                  rw [heq] at hvalid
                  exact absurd rfl hvalid

/-- Revision-2.1 validation never produces the nil-rating-dereference panic
either. -/
theorem v21_validate_noPanic (urlOk langOk : String → Bool)
    (ci : ComicInfov21) :
    resultHasNilPanic (ComicInfov21.Validate urlOk langOk ci) = false := by
  unfold ComicInfov21.Validate
  split
  · rename_i e heq
    have hl := v2_validate_noPanic urlOk langOk ci.ComicInfov2
    rw [heq] at hl
    exact hl
  · split
    · rfl
    · split
      · rfl
      · rename_i hvalid hopt heq
        rw [heq] at hvalid
        exact absurd rfl hvalid

/-- C10.  The nil community-rating pointer is accepted by both rating
checks, so Validate never reaches the error branch that dereferences the
pointer: no validation outcome contains the modelled nil-dereference panic,
for revision 2 and revision 2.1 alike. -/
theorem c10_no_nil_rating_deref (urlOk langOk : String → Bool)
    (d2 : ComicInfov2) (d21 : ComicInfov21) :
    CommunityRating.IsValid none = true ∧
    isV21CommunityRatingValid none = true ∧
    resultHasNilPanic (ComicInfov2.Validate urlOk langOk d2) = false ∧
    resultHasNilPanic (ComicInfov21.Validate urlOk langOk d21) = false :=
  ⟨rfl, rfl, v2_validate_noPanic urlOk langOk d2,
    v21_validate_noPanic urlOk langOk d21⟩

end comicinfo
